import Mathlib

/-!
Verification of the featured-image generator (src/generateImage.js and
src/server/templates.js) against its natural-language specification.

Numbers that the JavaScript code handles as IEEE doubles are modelled as
exact rationals; text measurement (CanvasRenderingContext2D.measureText,
which depends on the ambient font) is modelled as an abstract width
function, parametrised by the current font size where the code changes
the font between measurements.
-/

namespace ImageGen

/-! ### Word wrapping (generateImage.js, wrapText, lines 301-318) -/

/-- The JavaScript split of the input text on single spaces
(text.split in wrapText); empty fragments are kept, as in JS. -/
def splitWordsAux : List Char → List Char → List String
  | [], acc => [String.mk acc.reverse]
  | c :: rest, acc =>
    if c = ' ' then String.mk acc.reverse :: splitWordsAux rest []
    else splitWordsAux rest (c :: acc)

/-- All words of a text, in order (JS: text.split applied to a single space). -/
def splitWords (text : String) : List String := splitWordsAux text.data []

/-- The line extension step of wrapText: the JS expression
testLine = currentLine ? currentLine + " " + word : word. -/
def appendWord (currentLine word : String) : String :=
  if currentLine ≠ "" then currentLine ++ " " ++ word else word

/-- The text of a line assembled from a group of consecutive words, exactly
as the wrapText loop assembles it. -/
def joinWords (g : List String) : String := g.foldl appendWord ""

/-- The loop of wrapText over the remaining words, carrying currentLine.
The measure function stands for ctx.measureText under the current font.
A line is flushed when the candidate line overflows and currentLine is
truthy (JS: metrics.width > maxWidth and currentLine nonempty). -/
def wrapAux (meas : String → ℚ) (maxWidth : ℚ) : List String → String → List String
  | [], currentLine => if currentLine ≠ "" then [currentLine] else []
  | word :: ws, currentLine =>
    let testLine := appendWord currentLine word
    if maxWidth < meas testLine ∧ currentLine ≠ "" then
      currentLine :: wrapAux meas maxWidth ws word
    else
      wrapAux meas maxWidth ws testLine

/-- wrapText (generateImage.js lines 301-318): greedy word wrap of a text at
a wrap width, under an abstract measure. -/
def wrapText (meas : String → ℚ) (text : String) (maxWidth : ℚ) : List String :=
  wrapAux meas maxWidth (splitWords text) ""

/-! ### Hex colors (generateImage.js, hexToRgb, lines 68-77) -/

/-- A character matched by the regex class of hexToRgb: a digit, or a hex
letter of either case (the regex has the case-insensitive flag). -/
def isHexDigitChar (c : Char) : Bool :=
  c.isDigit || ('a' ≤ c ∧ c ≤ 'f') || ('A' ≤ c ∧ c ≤ 'F')

/-- Value of one hex digit, as parseInt with radix 16 sees it. -/
def hexVal (c : Char) : ℕ :=
  if c.isDigit then c.toNat - '0'.toNat
  else if 'a' ≤ c ∧ c ≤ 'f' then c.toNat - 'a'.toNat + 10
  else c.toNat - 'A'.toNat + 10

/-- An RGB triple as returned by hexToRgb. -/
structure Rgb where
  r : ℕ
  g : ℕ
  b : ℕ
  deriving DecidableEq

/-- hexToRgb (generateImage.js lines 68-77): parse an optionally
hash-prefixed, case-insensitive six-hex-digit color; anything else maps
to white (255, 255, 255). -/
def hexToRgb (hex : String) : Rgb :=
  let body : List Char :=
    match hex.data with
    | '#' :: rest => rest
    | cs => cs
  match body with
  | [c1, c2, c3, c4, c5, c6] =>
    if [c1, c2, c3, c4, c5, c6].all isHexDigitChar then
      ⟨16 * hexVal c1 + hexVal c2, 16 * hexVal c3 + hexVal c4, 16 * hexVal c5 + hexVal c6⟩
    else ⟨255, 255, 255⟩
  | _ => ⟨255, 255, 255⟩

/-- Whether the parser of hexToRgb recognises the string: an optional
leading hash, then exactly six hex digits of either case. -/
def hexWellFormed (hex : String) : Bool :=
  let body : List Char :=
    match hex.data with
    | '#' :: rest => rest
    | cs => cs
  match body with
  | [c1, c2, c3, c4, c5, c6] => [c1, c2, c3, c4, c5, c6].all isHexDigitChar
  | _ => false

/-- The sixteen lowercase hex digits; the spec's canonical form of a color
uses exactly these. -/
def lowerHexDigits : List Char :=
  ['0', '1', '2', '3', '4', '5', '6', '7'] ++ ['8', '9', 'a', 'b', 'c', 'd', 'e', 'f']

/-- Lowercase hex digit of a value below 16. -/
def lowerHexChar (n : ℕ) : Char :=
  if n < 10 then Char.ofNat ('0'.toNat + n) else Char.ofNat ('a'.toNat + n - 10)

/-- Two lowercase hex digits of a byte value. -/
def byteToHex (n : ℕ) : List Char := [lowerHexChar (n / 16), lowerHexChar (n % 16)]

/-- Re-encoding of an RGB triple in the canonical lowercase form used for
the round-trip property. -/
def rgbToHexString (c : Rgb) : String :=
  String.mk ('#' :: (byteToHex c.r ++ byteToHex c.g ++ byteToHex c.b))

/-- Modelled from the claim's words: a well-formed hex color string of the
form given in the spec, a hash followed by six lowercase hex digits. -/
def specWellFormedHex (hex : String) : Prop :=
  ∃ d1 d2 d3 d4 d5 d6, hex.data = ['#', d1, d2, d3, d4, d5, d6] ∧
    ∀ d ∈ [d1, d2, d3, d4, d5, d6], d ∈ lowerHexDigits

/-! ### Decimal rendering of the timestamp (generateImage.js line 593) -/

/-- Decimal digits of a natural number, most significant first; the first
argument is structural fuel, always called with fuel above the number. -/
def natToDigits : ℕ → ℕ → List Char
  | 0, _ => []
  | fuel + 1, n =>
    if n < 10 then [Char.ofNat ('0'.toNat + n)]
    else natToDigits fuel (n / 10) ++ [Char.ofNat ('0'.toNat + n % 10)]

/-- Decimal rendering of a natural number, as the JS template literal
renders the integer Date.now(). -/
def natToDecimalString (n : ℕ) : String := String.mk (natToDigits (n + 1) n)

/-- Value of a list of decimal digits, used to invert natToDigits. -/
def decimalVal (cs : List Char) : ℕ := cs.foldl (fun a c => a * 10 + (c.toNat - '0'.toNat)) 0

/-- The filename generateImage builds (line 593): the fixed stem, the
decimal Date.now() value sampled by the call, and the fixed extension. -/
def makeFilename (now : ℕ) : String :=
  "featured-image-" ++ natToDecimalString now ++ ".webp"

/-! ### Template data model (server/templates.js) -/

/-- Canvas dimensions of a template. -/
structure CanvasCfg where
  width : ℚ
  height : ℚ
  deriving DecidableEq

/-- One gradient stop: offset and color. -/
structure GradientStop where
  offset : ℚ
  color : String
  deriving DecidableEq

/-- A template background: solid fill, linear gradient (the catalog's
gradient objects also carry a type tag, always linear, which the drawing
code never reads), or a bundled image asset. -/
inductive BgCfg where
  | solid (color : String)
  | gradient (angle : ℚ) (stops : List GradientStop)
  | image (imagePath : String)
  deriving DecidableEq

/-- A decoration shape descriptor. -/
inductive Decoration where
  | circle (x y radius : ℚ) (color : Option String)
  | rect (x y width height : ℚ) (borderRadius : Option ℚ) (color : Option String)
  | line (x1 y1 x2 y2 : ℚ) (strokeWidth : Option ℚ) (color : Option String)
  deriving DecidableEq

/-- Border of a banner. -/
structure BorderCfg where
  width : ℚ
  color : String
  deriving DecidableEq

/-- Shadow of a floating banner. -/
structure ShadowCfg where
  blur : ℚ
  color : String
  offsetY : Option ℚ
  deriving DecidableEq

/-- A banner configuration, one of the three layout variants drawBanner
dispatches on (the centered variant has height and padding; left and
floating carry an explicit box). -/
inductive BannerCfg where
  | centered (height padding : ℚ) (defaultColor : String) (defaultOpacity : ℚ)
  | left (x y width height : ℚ) (defaultColor : String) (defaultOpacity : ℚ)
      (borderRadius : Option ℚ) (border : Option BorderCfg) (shadow : Option ShadowCfg)
  | floating (x y width height : ℚ) (defaultColor : String) (defaultOpacity : ℚ)
      (borderRadius : Option ℚ) (border : Option BorderCfg) (shadow : Option ShadowCfg)
  deriving DecidableEq

/-- Badge behind the category text. -/
structure BadgeCfg where
  enabled : Bool
  paddingX : ℚ
  paddingY : ℚ
  color : String
  borderRadius : Option ℚ
  deriving DecidableEq

/-- Category text configuration. -/
structure CategoryCfg where
  font : String
  defaultColor : String
  textTransform : Option String
  letterSpacing : Option ℚ
  x : Option ℚ
  y : Option ℚ
  offsetY : Option ℚ
  align : Option String
  badge : Option BadgeCfg
  deriving DecidableEq

/-- Title text configuration. -/
structure TitleCfg where
  font : String
  defaultColor : String
  lineHeight : Option ℚ
  x : Option ℚ
  y : Option ℚ
  offsetY : Option ℚ
  align : Option String
  maxWidth : Option ℚ
  style : Option String
  deriving DecidableEq

/-- Subtitle configuration. -/
structure SubtitleCfg where
  enabled : Bool
  font : String
  color : String
  x : ℚ
  y : ℚ
  align : Option String
  text : String
  deriving DecidableEq

/-- The config record of a template. -/
structure TemplateConfig where
  canvas : CanvasCfg
  background : BgCfg
  decorations : Option (List Decoration)
  banner : Option BannerCfg
  category : Option CategoryCfg
  title : Option TitleCfg
  subtitle : Option SubtitleCfg
  deriving DecidableEq

/-- Display-only preview summary of a template. -/
structure Preview where
  bgGradient : List String
  accentColor : String
  deriving DecidableEq

/-- One catalog entry. -/
structure Template where
  id : String
  name : String
  description : String
  preview : Preview
  config : TemplateConfig
  deriving DecidableEq

/-- Category config of the classic template. -/
def classicCategoryCfg : CategoryCfg :=
  { font := "500 24px Arial, sans-serif", defaultColor := "#c67c4e",
    textTransform := some "uppercase", letterSpacing := some 4,
    x := none, y := none, offsetY := some 70, align := none, badge := none }

/-- Title config of the classic template. -/
def classicTitleCfg : TitleCfg :=
  { font := "400 64px Georgia, Times New Roman, serif", defaultColor := "#1a1a1a",
    lineHeight := some 80, x := none, y := none, offsetY := some 80,
    align := none, maxWidth := some (-160), style := none }

/-- Template 1: Classic. -/
def classicT : Template :=
  { id := "classic", name := "Classic",
    description := "Clean centered banner with elegant serif typography",
    preview := { bgGradient := ["#e8e4df", "#d4cfc9"], accentColor := "#c67c4e" },
    config :=
      { canvas := { width := 1200, height := 630 },
        background := .gradient 45 [⟨0, "#e8e4df"⟩, ⟨1, "#d4cfc9"⟩],
        decorations := none,
        banner := some (.centered 340 100 "#ffffff" 0.85),
        category := some classicCategoryCfg,
        title := some classicTitleCfg,
        subtitle := none } }

/-- Category config of the modernDark template. -/
def modernDarkCategoryCfg : CategoryCfg :=
  { font := "700 18px Arial, sans-serif", defaultColor := "#e94560",
    textTransform := some "uppercase", letterSpacing := some 6,
    x := some 120, y := some 180, offsetY := none, align := some "left", badge := none }

/-- Title config of the modernDark template. -/
def modernDarkTitleCfg : TitleCfg :=
  { font := "700 52px Arial, sans-serif", defaultColor := "#ffffff",
    lineHeight := some 68, x := some 120, y := some 260, offsetY := none,
    align := some "left", maxWidth := some 620, style := none }

/-- Template 2: Modern Dark. -/
def modernDarkT : Template :=
  { id := "modernDark", name := "Modern Dark",
    description := "Bold dark theme with vibrant gradient accents",
    preview := { bgGradient := ["#1a1a2e", "#16213e"], accentColor := "#e94560" },
    config :=
      { canvas := { width := 1200, height := 630 },
        background := .gradient 135 [⟨0, "#1a1a2e"⟩, ⟨0.5, "#16213e"⟩, ⟨1, "#0f3460"⟩],
        decorations := some
          [.circle 1100 100 200 (some "rgba(233, 69, 96, 0.15)"),
           .circle 100 530 150 (some "rgba(233, 69, 96, 0.1)")],
        banner := some (.left 80 120 700 390 "#ffffff" 0.05 (some 20)
          (some ⟨2, "rgba(233, 69, 96, 0.3)"⟩) none),
        category := some modernDarkCategoryCfg,
        title := some modernDarkTitleCfg,
        subtitle := none } }

/-- Category config of the minimal template. -/
def minimalCategoryCfg : CategoryCfg :=
  { font := "500 16px Arial, sans-serif", defaultColor := "#2563eb",
    textTransform := some "uppercase", letterSpacing := some 8,
    x := some 100, y := some 240, offsetY := none, align := some "left", badge := none }

/-- Title config of the minimal template. -/
def minimalTitleCfg : TitleCfg :=
  { font := "300 58px Georgia, serif", defaultColor := "#1f2937",
    lineHeight := some 75, x := some 100, y := some 320, offsetY := none,
    align := some "left", maxWidth := some 900, style := none }

/-- Template 3: Minimal (no banner). -/
def minimalT : Template :=
  { id := "minimal", name := "Minimal",
    description := "Ultra clean design with subtle bottom accent",
    preview := { bgGradient := ["#fafafa", "#f0f0f0"], accentColor := "#2563eb" },
    config :=
      { canvas := { width := 1200, height := 630 },
        background := .solid "#fafafa",
        decorations := some
          [.rect 0 590 1200 40 none (some "#2563eb"),
           .line 100 200 300 200 (some 3) (some "#2563eb")],
        banner := none,
        category := some minimalCategoryCfg,
        title := some minimalTitleCfg,
        subtitle := none } }

/-- Category config of the vibrant template. -/
def vibrantCategoryCfg : CategoryCfg :=
  { font := "700 16px Arial, sans-serif", defaultColor := "#7c3aed",
    textTransform := some "uppercase", letterSpacing := some 6,
    x := none, y := some 200, offsetY := none, align := some "center",
    badge := some { enabled := true, paddingX := 20, paddingY := 10,
                    color := "rgba(124, 58, 237, 0.1)", borderRadius := some 20 } }

/-- Title config of the vibrant template. -/
def vibrantTitleCfg : TitleCfg :=
  { font := "700 54px Arial, sans-serif", defaultColor := "#1f2937",
    lineHeight := some 70, x := none, y := some 290, offsetY := none,
    align := some "center", maxWidth := some 800, style := none }

/-- Template 4: Vibrant. -/
def vibrantT : Template :=
  { id := "vibrant", name := "Vibrant",
    description := "Colorful gradient background with floating card",
    preview := { bgGradient := ["#667eea", "#764ba2"], accentColor := "#fbbf24" },
    config :=
      { canvas := { width := 1200, height := 630 },
        background := .gradient 135 [⟨0, "#667eea"⟩, ⟨0.5, "#764ba2"⟩, ⟨1, "#f093fb"⟩],
        decorations := some
          [.circle 200 100 80 (some "rgba(255, 255, 255, 0.1)"),
           .circle 1000 500 120 (some "rgba(255, 255, 255, 0.08)"),
           .circle 900 150 40 (some "rgba(255, 255, 255, 0.15)")],
        banner := some (.floating 100 115 1000 400 "#ffffff" 0.95 (some 24)
          none (some ⟨60, "rgba(0, 0, 0, 0.25)", some 20⟩)),
        category := some vibrantCategoryCfg,
        title := some vibrantTitleCfg,
        subtitle := none } }

/-- Category config of the editorial template. -/
def editorialCategoryCfg : CategoryCfg :=
  { font := "400 14px Georgia, serif", defaultColor := "#ea580c",
    textTransform := some "uppercase", letterSpacing := some 10,
    x := some 80, y := some 120, offsetY := none, align := some "left", badge := none }

/-- Title config of the editorial template. -/
def editorialTitleCfg : TitleCfg :=
  { font := "400 72px Georgia, serif", defaultColor := "#292524",
    lineHeight := some 85, x := some 80, y := some 200, offsetY := none,
    align := some "left", maxWidth := some 1000, style := some "italic" }

/-- Template 5: Editorial (no banner, has a subtitle). -/
def editorialT : Template :=
  { id := "editorial", name := "Editorial",
    description := "Magazine-style layout with bold typography",
    preview := { bgGradient := ["#fef3e2", "#fde8d0"], accentColor := "#ea580c" },
    config :=
      { canvas := { width := 1200, height := 630 },
        background := .gradient 180 [⟨0, "#fef3e2"⟩, ⟨1, "#fde8d0"⟩],
        decorations := some
          [.rect 0 0 12 630 none (some "#ea580c"),
           .line 80 550 400 550 (some 2) (some "#ea580c")],
        banner := none,
        category := some editorialCategoryCfg,
        title := some editorialTitleCfg,
        subtitle := some { enabled := true, font := "400 20px Georgia, serif",
                           color := "#78716c", x := 80, y := 570, align := some "left",
                           text := "Featured Article" } } }

/-- Category config of the prayerCover template. -/
def prayerCoverCategoryCfg : CategoryCfg :=
  { font := "500 24px Arial, sans-serif", defaultColor := "#be185d",
    textTransform := some "uppercase", letterSpacing := some 4,
    x := none, y := none, offsetY := some 70, align := none, badge := none }

/-- Title config of the prayerCover template. -/
def prayerCoverTitleCfg : TitleCfg :=
  { font := "400 64px Georgia, Times New Roman, serif", defaultColor := "#1e293b",
    lineHeight := some 80, x := none, y := none, offsetY := some 80,
    align := none, maxWidth := some (-160), style := none }

/-- Template 6: Prayer Cover (image background; its asset path is joined
from the module directory at load time, kept here relative). -/
def prayerCoverT : Template :=
  { id := "prayerCover", name := "Prayer Cover",
    description := "Spiritual themed cover with soft pink-cyan gradient background",
    preview := { bgGradient := ["#7dd3fc", "#f9a8d4"], accentColor := "#be185d" },
    config :=
      { canvas := { width := 1200, height := 630 },
        background := .image "assets/prayer-bg.png",
        decorations := none,
        banner := some (.centered 340 100 "#ffffff" 0.9),
        category := some prayerCoverCategoryCfg,
        title := some prayerCoverTitleCfg,
        subtitle := none } }

/-- The templates object of templates.js, as a key-to-entry association
list in declaration order. -/
def templatesAssoc : List (String × Template) :=
  [("classic", classicT), ("modernDark", modernDarkT), ("minimal", minimalT),
   ("vibrant", vibrantT), ("editorial", editorialT), ("prayerCover", prayerCoverT)]

/-- The catalog entries in declaration order (Object.values of templates). -/
def templatesList : List Template :=
  [classicT, modernDarkT, minimalT, vibrantT, editorialT, prayerCoverT]

/-- Own-property lookup on the templates object literal: only the six
catalog keys. -/
def templatesGet (templateId : String) : Option Template :=
  templatesAssoc.lookup templateId

/-- The own property names of Object.prototype in Node: a bracket read of
any of them on the templates object literal walks the prototype chain and
yields the inherited member, a truthy function (or, for the proto
accessor, a truthy object), never undefined. -/
def objectProtoKeys : List String :=
  ["constructor", "hasOwnProperty", "isPrototypeOf", "propertyIsEnumerable",
   "toLocaleString", "toString", "valueOf", "__proto__",
   "__defineGetter__", "__defineSetter__", "__lookupGetter__", "__lookupSetter__"]

/-- What the JS expression templates[templateId] or-else templates.classic
can produce: a catalog template, or a truthy member inherited from
Object.prototype, on which the or-else fallback does not fire. -/
inductive GetTemplateResult where
  | entry (t : Template)
  | inherited (name : String)
  deriving DecidableEq

/-- getTemplate (templates.js lines 387-389): the bracket read finds own
keys first, then the inherited Object.prototype members (truthy, so the
classic fallback does not fire on them and the inherited non-template
value is returned); only an undefined read falls back to the classic
entry. A missing argument indexes the object with undefined and falls
back the same way. -/
def getTemplate (templateId : Option String) : GetTemplateResult :=
  match templateId with
  | some tid =>
    match templatesGet tid with
    | some t => .entry t
    | none => if tid ∈ objectProtoKeys then .inherited tid else .entry classicT
  | none => .entry classicT

/-! ### Banner geometry (generateImage.js, drawBanner, lines 229-296) -/

/-- The banner bounds record produced by drawBanner and consumed by the
text stages. -/
structure Bounds where
  x : ℚ
  y : ℚ
  width : ℚ
  height : ℚ
  centerX : ℚ
  deriving DecidableEq

/-- The bounds drawBanner returns: null without a banner config; the
centered variant derives its box from height and padding; left and
floating return their explicit box. Painting (fill, border, shadow) has
no effect on the returned geometry. -/
def drawBannerBounds (canvas : CanvasCfg) : Option BannerCfg → Option Bounds
  | none => none
  | some (.centered height padding _ _) =>
    some ⟨padding, (canvas.height - height) / 2, canvas.width - padding * 2, height,
          canvas.width / 2⟩
  | some (.left x y width height _ _ _ _ _) => some ⟨x, y, width, height, x + width / 2⟩
  | some (.floating x y width height _ _ _ _ _) => some ⟨x, y, width, height, x + width / 2⟩

/-! ### Text positioning (generateImage.js, drawCategory lines 323-387 and
drawTitle lines 490-506) -/

/-- JS truthiness of an optional number: present and nonzero. -/
def truthyQ : Option ℚ → Bool
  | some v => v ≠ 0
  | none => false

/-- The effective alignment, the JS expression config.align or center
(an empty alignment string is falsy and also falls back). -/
def alignOr (align : Option String) : String :=
  match align with
  | some a => if a = "" then "center" else a
  | none => "center"

/-- The x and y drawCategory resolves (lines 343-357): explicit config
coordinates win; otherwise x centers on the canvas for centered alignment
or anchors 40 units inside the banner; y anchors at the banner top plus
the configured offset. A coordinate with no applicable rule stays
undefined (none). -/
def categoryPosition (cfg : CategoryCfg) (canvas : CanvasCfg) (bannerBounds : Option Bounds) :
    Option ℚ × Option ℚ :=
  let align := alignOr cfg.align
  let x : Option ℚ :=
    if cfg.x.isSome then cfg.x
    else if align = "center" then some (canvas.width / 2)
    else match bannerBounds with
      | some b => some (b.x + 40)
      | none => none
  let y : Option ℚ :=
    if cfg.y.isSome then cfg.y
    else match bannerBounds with
      | some b => if truthyQ cfg.offsetY then some (b.y + cfg.offsetY.getD 0) else none
      | none => none
  (x, y)

/-- The y value drawCategory returns for title anchoring: none when the
stage is skipped (no category config, or absent or empty category text,
both falsy in JS), else the resolved y. -/
def drawCategoryY (cfg : Option CategoryCfg) (categoryText : Option String)
    (canvas : CanvasCfg) (bannerBounds : Option Bounds) : Option ℚ :=
  match cfg, categoryText with
  | some c, some t => if t = "" then none else (categoryPosition c canvas bannerBounds).2
  | _, _ => none

/-- The x and startY drawTitle resolves (lines 490-506): explicit config
coordinates win; otherwise x as for the category; startY anchors at
categoryY plus the configured offset when both are truthy, else at the
banner's vertical midpoint. -/
def titlePosition (cfg : TitleCfg) (canvas : CanvasCfg) (bannerBounds : Option Bounds)
    (categoryY : Option ℚ) : Option ℚ × Option ℚ :=
  let align := alignOr cfg.align
  let x : Option ℚ :=
    if cfg.x.isSome then cfg.x
    else if align = "center" then some (canvas.width / 2)
    else match bannerBounds with
      | some b => some (b.x + 40)
      | none => none
  let startY : Option ℚ :=
    if cfg.y.isSome then cfg.y
    else if truthyQ categoryY ∧ truthyQ cfg.offsetY then
      some (categoryY.getD 0 + cfg.offsetY.getD 0)
    else match bannerBounds with
      | some b => some (b.y + b.height / 2)
      | none => none
  (x, startY)

/-! ### Title fitting (generateImage.js, drawTitle, lines 389-511) -/

/-- getFontSize (lines 392-395): the first run of digits immediately
followed by px, as the regex finds it; 72 when no such run exists.
The scanner carries the digit run accumulated so far. -/
def getFontSizeAux : List Char → List Char → Option ℕ
  | _, [] => none
  | run, c :: rest =>
    if c.isDigit then getFontSizeAux (run ++ [c]) rest
    else if run ≠ [] ∧ c = 'p' ∧ rest.head? = some 'x' then some (decimalVal run)
    else getFontSizeAux [] rest

/-- Font size parsed from a font string, with the parseInt fallback 72. -/
def getFontSize (fontString : String) : ℕ :=
  (getFontSizeAux [] fontString.data).getD 72

/-- The effective nominal line height, the JS expression
titleConfig.lineHeight or 80 (zero is falsy and also falls back). -/
def lineHeightOr80 : Option ℚ → ℚ
  | some v => if v = 0 then 80 else v
  | none => 80

/-- JS Math.max on two numbers: the second when the first is not above
it, else the first. -/
def mathMax (a b : ℚ) : ℚ := if a ≤ b then b else a

/-- The font size floor of the fitting loop (line 444):
half the nominal size, but never below 30. -/
def minFontSizeOf (nominal : ℚ) : ℚ := mathMax (nominal * 0.5) 30

/-- The line count ceiling of the fitting loop (line 445). -/
def maxLines : ℕ := 4

/-- The height budget of the fitting loop (lines 446-448): 80 percent of
the banner height, or half the canvas height without banner bounds. -/
def maxHeightOf (bannerBounds : Option Bounds) (canvasHeight : ℚ) : ℚ :=
  match bannerBounds with
  | some b => b.height * 0.8
  | none => canvasHeight * 0.5

/-- The wrap width drawTitle uses (lines 431-440): the configured maxWidth
when given (added to the banner width when negative and bounds exist),
else the canvas width minus 200. -/
def titleMaxWidth : Option ℚ → Option Bounds → ℚ → ℚ
  | some mw, some b, _ => if mw < 0 then b.width + mw else mw
  | some mw, none, _ => mw
  | none, _, canvasWidth => canvasWidth - 200

/-- Everything the fitting loop closes over: the measure at a given font
size (ctx.measureText after ctx.font is set to that size), the title
text, the wrap width, the nominal size and floor, the nominal line
height, and the height budget. -/
structure FitCtx where
  meas : ℚ → String → ℚ
  text : String
  maxWidth : ℚ
  nominal : ℚ
  minF : ℚ
  baseLH : ℚ
  maxH : ℚ

/-- The outcome of the fitting loop: the font sizes at which the text was
wrapped, in order; the number of loop body executions; and the final
font size, line height and wrapped lines. -/
structure FitResult where
  tried : List ℚ
  iters : ℕ
  fontSize : ℚ
  lineHeight : ℚ
  lines : List String
  deriving DecidableEq

/-- One-to-one image of the while loop of drawTitle (lines 456-484),
entered at a given size and line height. The body wraps, accepts when at
most four lines fit the height budget, otherwise steps the size down by
4; a step to or below the floor clamps to the floor, rescales the line
height, re-wraps once at the floor and stops. -/
def fitAux (ctx : FitCtx) (size lh : ℚ) : FitResult :=
  if (wrapText (ctx.meas size) ctx.text ctx.maxWidth).length ≤ maxLines ∧
      ((wrapText (ctx.meas size) ctx.text ctx.maxWidth).length : ℚ) * lh ≤ ctx.maxH then
    ⟨[size], 1, size, lh, wrapText (ctx.meas size) ctx.text ctx.maxWidth⟩
  else if h : size - 4 ≤ ctx.minF then
    ⟨[size, ctx.minF], 1, ctx.minF, ctx.baseLH * (ctx.minF / ctx.nominal),
     wrapText (ctx.meas ctx.minF) ctx.text ctx.maxWidth⟩
  else
    let r := fitAux ctx (size - 4) (ctx.baseLH * ((size - 4) / ctx.nominal))
    ⟨size :: r.tried, r.iters + 1, r.fontSize, r.lineHeight, r.lines⟩
termination_by (⌈size - ctx.minF⌉).toNat
decreasing_by
  have h4 : (4 : ℚ) < size - ctx.minF := by
    have := lt_of_not_le h
    linarith
  have hceil : (4 : ℤ) < ⌈size - ctx.minF⌉ := by
    exact_mod_cast Int.lt_ceil.mpr (by exact_mod_cast h4)
  have heq : ⌈size - 4 - ctx.minF⌉ = ⌈size - ctx.minF⌉ - 4 := by
    have : size - 4 - ctx.minF = (size - ctx.minF) - ((4 : ℤ) : ℚ) := by push_cast; ring
    rw [this, Int.ceil_sub_int]
  rw [heq]
  omega

/-- The fitting phase of drawTitle: the loop above, guarded by the while
condition at first entry (size at least the floor); when the nominal size
already sits below the floor the body never runs and the initial lines
value, the empty list, is kept. -/
def fitTitle (meas : ℚ → String → ℚ) (text : String) (maxWidth nominal baseLH maxH : ℚ) :
    FitResult :=
  if minFontSizeOf nominal ≤ nominal then
    fitAux ⟨meas, text, maxWidth, nominal, minFontSizeOf nominal, baseLH, maxH⟩ nominal baseLH
  else ⟨[], 0, nominal, baseLH, []⟩

/-- drawTitle's fitting stage wired to a config, banner bounds and canvas:
nominal size parsed from the font string, wrap width, line height default
and height budget resolved as in lines 431-453. The italic transform of
line 424 prefixes the font string and cannot disturb the digits-px
pattern, so the parsed size is unchanged by it. -/
def drawTitleFit (cfg : TitleCfg) (canvas : CanvasCfg) (bannerBounds : Option Bounds)
    (meas : ℚ → String → ℚ) (titleText : String) : FitResult :=
  fitTitle meas titleText (titleMaxWidth cfg.maxWidth bannerBounds canvas.width)
    (getFontSize cfg.font : ℚ) (lineHeightOr80 cfg.lineHeight)
    (maxHeightOf bannerBounds canvas.height)

/-! ### Background stage and the render pipeline (generateImage.js,
drawBackground lines 94-172 and generateImage lines 529-605) -/

/-- A decoded image; only its dimensions matter to the pipeline. -/
structure Image where
  width : ℚ
  height : ℚ
  deriving DecidableEq

/-- Where a caller-supplied background image came from. -/
inductive ImgSrc where
  | base64
  | url
  deriving DecidableEq

/-- The observable actions of a render call: the outbound HTTP fetch, each
way the canvas background can be painted, and the file write of the
encoded result. -/
inductive RenderEffect where
  | httpFetch (url : String)
  | drewUserImage (src : ImgSrc)
  | drewSolid (color : String)
  | drewGradient
  | drewTemplateImage (path : String)
  | drewFallbackGradient
  | wroteFile (filepath : String)
  deriving DecidableEq

/-- The effectful collaborators of the background stage: decoding an
inline base64 image, fetching a URL (fetchImageFromUrl, redirects and
headers included), decoding a fetched buffer, and loading a bundled
asset from a path. Each may fail with a message. -/
structure BgDeps where
  loadBase64 : String → Except String Image
  fetchImageFromUrl : String → Except String String
  loadBuffer : String → Except String Image
  loadPath : String → Except String Image

/-- JS truthiness of an optional string: present and nonempty (an empty
string is falsy). -/
def truthyS : Option String → Bool
  | some s => s ≠ ""
  | none => false

/-- drawBackground (lines 94-172): a caller-supplied image overrides the
template background, guarded by JS truthiness (line 102), with a truthy
inline base64 string preferred (line 105) and the URL fetched otherwise;
a user-background failure is rethrown wrapped. Without a truthy
caller-supplied source the template background is painted, and a failing
bundled asset degrades to the fixed fallback gradient. Returns the
performed effects alongside success or the thrown error. The getD totals
the branch-guaranteed truthy (hence present) option. -/
def drawBackground (bgConfig : BgCfg) (bgImageUrl bgImageBase64 : Option String)
    (deps : BgDeps) : List RenderEffect × Except String Unit :=
  if truthyS bgImageUrl || truthyS bgImageBase64 then
    if truthyS bgImageBase64 then
      let b64 := bgImageBase64.getD ""
      match deps.loadBase64 b64 with
      | .ok _ => ([.drewUserImage .base64], .ok ())
      | .error e => ([], .error ("Background image loading failed: " ++ e))
    else
      let url := bgImageUrl.getD ""
      match deps.fetchImageFromUrl url with
      | .ok buf =>
        match deps.loadBuffer buf with
        | .ok _ => ([.httpFetch url, .drewUserImage .url], .ok ())
        | .error e => ([.httpFetch url], .error ("Background image loading failed: " ++ e))
      | .error e => ([.httpFetch url], .error ("Background image loading failed: " ++ e))
  else
    match bgConfig with
    | .solid color => ([.drewSolid color], .ok ())
    | .gradient _ _ => ([.drewGradient], .ok ())
    | .image p =>
      match deps.loadPath p with
      | .ok _ => ([.drewTemplateImage p], .ok ())
      | .error _ => ([.drewFallbackGradient], .ok ())

/-- A render request as generateImage destructures it. -/
structure GenRequest where
  templateId : Option String
  categoryText : Option String
  mainText : Option String
  bgImageUrl : Option String
  bgImageBase64 : Option String
  bannerColor : Option String
  bannerOpacity : Option ℚ
  categoryColor : Option String
  titleColor : Option String
  deriving DecidableEq

/-- The value generateImage resolves (the returned buffer is the encoded
canvas and carries no further observable structure here). -/
structure RenderResult where
  filename : String
  filepath : String
  deriving DecidableEq

/-- The output directory generateImage writes into (path.join with the
module directory, kept relative here). -/
def generatedDir : String := "generated"

/-- generateImage (lines 529-605): resolve the template (the destructuring
default classic applies when the id is absent), draw the background and
abort on its error, then name, encode and write the file. When getTemplate
yields an inherited Object.prototype member, its config read gives
undefined and the canvas creation throws a TypeError before anything is
drawn or written. The stages in between (decorations, banner, category,
title, subtitle) only mutate the canvas and are modelled by the
standalone stage functions drawBannerBounds, drawCategoryY, titlePosition
and drawTitleFit. The now argument is the Date.now() sample of the
call. -/
def generateImage (req : GenRequest) (deps : BgDeps) (now : ℕ) :
    List RenderEffect × Except String RenderResult :=
  match getTemplate (some (req.templateId.getD "classic")) with
  | .inherited _ =>
    ([], .error "TypeError: Cannot read properties of undefined (reading 'canvas')")
  | .entry template =>
    match drawBackground template.config.background req.bgImageUrl req.bgImageBase64 deps with
    | (bgEffects, .error e) => (bgEffects, .error e)
    | (bgEffects, .ok _) =>
      let filename := makeFilename now
      let filepath := generatedDir ++ "/" ++ filename
      (bgEffects ++ [.wroteFile filepath], .ok ⟨filename, filepath⟩)

/-! ### Concrete instances used by witnesses and counterexamples -/

/-- A simple concrete text measure: the character count. -/
def measLen (s : String) : ℚ := (s.length : ℚ)

/-- A request supplying only an inline base64 background. -/
def reqBase64 : GenRequest :=
  ⟨none, none, some "Hello World", none, some "data:image/png;base64,AAAA",
   none, none, none, none⟩

/-- A request supplying both an inline background and a URL. -/
def reqBoth : GenRequest :=
  ⟨none, none, some "Hello World", some "http://example.com/a.png",
   some "data:image/png;base64,AAAA", none, none, none, none⟩

/-- A request supplying a URL together with an empty (hence falsy) inline
background string. -/
def reqEmptyB64 : GenRequest :=
  ⟨none, none, some "Hello World", some "http://example.com/a.png", some "",
   none, none, none, none⟩

/-- Collaborators whose base64 decoder fails. -/
def depsBadBase64 : BgDeps :=
  ⟨fun _ => .error "unsupported image type", fun _ => .ok "buf",
   fun _ => .ok ⟨1, 1⟩, fun _ => .ok ⟨1, 1⟩⟩

/-- Collaborators that always succeed. -/
def depsOk : BgDeps :=
  ⟨fun _ => .ok ⟨800, 600⟩, fun _ => .ok "buf",
   fun _ => .ok ⟨800, 600⟩, fun _ => .ok ⟨800, 600⟩⟩

/-- A plain request with no caller background. -/
def reqPlainA : GenRequest :=
  ⟨some "classic", some "News", some "Hello World", none, none, none, none, none, none⟩

/-- A second, different plain request with no caller background. -/
def reqPlainB : GenRequest :=
  ⟨some "minimal", some "Update", some "Another Title", none, none, none, none, none, none⟩

end ImageGen

namespace ImageGen

/-! ## Theorems -/

/-- Any line the wrapText loop emits either fits the width or is a single
word of the word list; meeting the loop with a current line that already
satisfies this keeps the property. -/
theorem wrapAux_width_or_mem (meas : String → ℚ) (w : ℚ) (ws0 : List String) :
    ∀ (ws : List String) (c : String), (c = "" ∨ meas c ≤ w ∨ c ∈ ws0) →
    (∀ x ∈ ws, x ∈ ws0) →
    ∀ l ∈ wrapAux meas w ws c, meas l ≤ w ∨ l ∈ ws0 := by
  intro ws
  induction ws with
  | nil =>
    intro c hc _ l hl
    simp only [wrapAux] at hl
    split at hl
    · rename_i hne
      rcases List.mem_singleton.mp hl with rfl
      rcases hc with h | h | h
      · exact absurd h hne
      · exact Or.inl h
      · exact Or.inr h
    · simp at hl
  | cons word ws ih =>
    intro c hc hsub l hl
    simp only [wrapAux] at hl
    split at hl
    · rename_i hcond
      rcases List.mem_cons.mp hl with rfl | hl'
      · rcases hc with h | h | h
        · exact absurd h hcond.2
        · exact Or.inl h
        · exact Or.inr h
      · exact ih word (Or.inr (Or.inr (hsub word (List.mem_cons_self word ws))))
          (fun x hx => hsub x (List.mem_cons_of_mem word hx)) l hl'
    · rename_i hcond
      refine ih (appendWord c word) ?_ (fun x hx => hsub x (List.mem_cons_of_mem word hx)) l hl
      by_cases hce : c = ""
      · subst hce
        simp only [appendWord, ne_eq, not_true_eq_false, if_neg, ite_false]
        exact Or.inr (Or.inr (hsub word (List.mem_cons_self word ws)))
      · refine Or.inr (Or.inl ?_)
        by_contra hgt
        exact hcond ⟨lt_of_not_le hgt, hce⟩

/-- Joining with one more word is exactly the candidate-line expression of
the loop. -/
theorem joinWords_append_single (g : List String) (word : String) :
    joinWords (g ++ [word]) = appendWord (joinWords g) word := by
  simp [joinWords, List.foldl_append]

/-- Every line the wrapText loop emits is the join of a nonempty block of
consecutive words of the full word list, when the loop is entered with a
current line that joins the block just before the remaining words. -/
theorem wrapAux_group (meas : String → ℚ) (w : ℚ) (ws0 : List String) :
    ∀ (ws g s : List String), ws0 = s ++ g ++ ws →
    ∀ l ∈ wrapAux meas w ws (joinWords g),
      ∃ g' s' t', g' ≠ [] ∧ ws0 = s' ++ g' ++ t' ∧ l = joinWords g' := by
  intro ws
  induction ws with
  | nil =>
    intro g s hdecomp l hl
    simp only [wrapAux] at hl
    split at hl
    · rename_i hne
      rcases List.mem_singleton.mp hl with rfl
      refine ⟨g, s, [], ?_, hdecomp, rfl⟩
      rintro rfl
      exact hne rfl
    · simp at hl
  | cons word ws ih =>
    intro g s hdecomp l hl
    simp only [wrapAux] at hl
    split at hl
    · rename_i hcond
      rcases List.mem_cons.mp hl with rfl | hl'
      · refine ⟨g, s, word :: ws, ?_, hdecomp, rfl⟩
        rintro rfl
        exact hcond.2 rfl
      · have hw : word = joinWords [word] := by
          simp [joinWords, appendWord]
        rw [hw] at hl'
        exact ih [word] (s ++ g) (by simpa [List.append_assoc] using hdecomp) l hl'
    · rw [← joinWords_append_single] at hl
      exact ih (g ++ [word]) s (by simpa [List.append_assoc] using hdecomp) l hl

/-- C2: every line produced by wrapText has measured width at most the
wrap width, except a line consisting of a single word of the text that
alone exceeds the width, which is placed alone on its line; and every
line is the join of a nonempty block of consecutive words, so words are
never split across lines. -/
theorem c2_wrap_text (meas : String → ℚ) (text : String) (w : ℚ) :
    ∀ l ∈ wrapText meas text w,
      (w < meas l → l ∈ splitWords text) ∧
      ∃ g s t, g ≠ [] ∧ splitWords text = s ++ g ++ t ∧ l = joinWords g := by
  intro l hl
  simp only [wrapText] at hl
  constructor
  · intro hover
    rcases wrapAux_width_or_mem meas w (splitWords text) (splitWords text) ""
        (Or.inl rfl) (fun _ hx => hx) l hl with h | h
    · exact absurd hover (not_lt_of_le h)
    · exact h
  · exact wrapAux_group meas w (splitWords text) (splitWords text) [] []
      (by simp) l hl

/-- C2 witness: the wrap of a concrete text at width 11 produces the line
consisting of the first two words, and the theorem instantiates to it. -/
theorem c2_wrap_text_witness :
    ((11 : ℚ) < measLen "hello world" → "hello world" ∈ splitWords "hello world foo") ∧
    ∃ g s t, g ≠ [] ∧ splitWords "hello world foo" = s ++ g ++ t ∧
      "hello world" = joinWords g :=
  c2_wrap_text measLen "hello world foo" 11 "hello world" (by decide)

/-- C6 (amended): getTemplate returns the catalog entry for a known id;
an unknown id returns the classic entry unless it names an inherited
Object.prototype member, in which case the bracket lookup yields that
truthy inherited member, not a template and not the classic fallback; an
absent id returns the classic entry; the function is total (never errors)
and the fallback is deterministic. -/
theorem c6_get_template :
    (∀ (templateId : String) (t : Template),
        templatesGet templateId = some t →
        getTemplate (some templateId) = .entry t) ∧
    (∀ templateId : String, templatesGet templateId = none →
        templateId ∉ objectProtoKeys →
        getTemplate (some templateId) = .entry classicT) ∧
    (∀ templateId : String, templatesGet templateId = none →
        templateId ∈ objectProtoKeys →
        getTemplate (some templateId) = .inherited templateId) ∧
    getTemplate none = .entry classicT := by
  refine ⟨?_, ?_, ?_, rfl⟩
  · intro templateId t h
    simp [getTemplate, h]
  · intro templateId h hn
    simp [getTemplate, h, hn]
  · intro templateId h hm
    simp [getTemplate, h, hm]

/-- C6 witness: a known id resolves to its entry and an unknown id
outside the prototype members resolves to the classic entry. -/
theorem c6_get_template_witness :
    getTemplate (some "minimal") = .entry minimalT ∧
    getTemplate (some "doesNotExist") = .entry classicT :=
  ⟨c6_get_template.1 "minimal" minimalT (by decide),
   c6_get_template.2.1 "doesNotExist" (by decide) (by decide)⟩

/-- C6 counterexample: toString is not a catalog id, yet the bracket read
finds the inherited Object.prototype member, which is truthy, so the
classic fallback never fires and getTemplate does not return the classic
entry, refuting that every unknown id maps to the fixed default. -/
theorem c6_counterexample :
    templatesGet "toString" = none ∧
    getTemplate (some "toString") = .inherited "toString" ∧
    getTemplate (some "toString") ≠ .entry classicT :=
  ⟨by decide, by decide, by decide⟩

/-- C4: the wrap width for title fitting is the configured maxWidth when a
nonnegative one is given, the banner width plus the (negative) configured
maxWidth when banner bounds exist, and the canvas width minus 200 when no
maxWidth is configured. -/
theorem c4_wrap_width (bannerBounds : Option Bounds) (canvasWidth : ℚ) :
    (∀ mw : ℚ, 0 ≤ mw → titleMaxWidth (some mw) bannerBounds canvasWidth = mw) ∧
    (∀ (mw : ℚ) (b : Bounds), mw < 0 →
        titleMaxWidth (some mw) (some b) canvasWidth = b.width + mw) ∧
    titleMaxWidth none bannerBounds canvasWidth = canvasWidth - 200 := by
  refine ⟨?_, ?_, ?_⟩
  · intro mw h
    cases bannerBounds with
    | none => rfl
    | some b => simp [titleMaxWidth, not_lt_of_le h]
  · intro mw b h
    simp [titleMaxWidth, h]
  · cases bannerBounds <;> rfl

/-- C4 witness: the three wrap-width rules at concrete inputs, among them
the classic template's banner bounds with its configured negative
maxWidth. -/
theorem c4_wrap_width_witness :
    titleMaxWidth (some 620) (some ⟨80, 120, 700, 390, 430⟩) 1200 = 620 ∧
    titleMaxWidth (some (-160)) (some ⟨100, 145, 1000, 340, 600⟩) 1200 = 1000 + (-160) ∧
    titleMaxWidth none none 1200 = 1200 - 200 :=
  ⟨(c4_wrap_width (some ⟨80, 120, 700, 390, 430⟩) 1200).1 620 (by norm_num),
   (c4_wrap_width (some ⟨100, 145, 1000, 340, 600⟩) 1200).2.1 (-160) ⟨100, 145, 1000, 340, 600⟩
     (by norm_num),
   (c4_wrap_width none 1200).2.2⟩

/-- Each lowercase hex digit is accepted by the parser's character class,
has value below 16, and is the canonical digit of its value. -/
theorem lowerHexDigit_facts :
    ∀ d ∈ lowerHexDigits, isHexDigitChar d = true ∧ hexVal d < 16 ∧
      lowerHexChar (hexVal d) = d := by
  intro d hd
  fin_cases hd <;> exact ⟨by decide, by decide, by decide⟩

/-- Hex re-encoding of a byte assembled from two digit values. -/
theorem byteToHex_assemble (a b : ℕ) (hb : b < 16) :
    byteToHex (16 * a + b) = [lowerHexChar a, lowerHexChar b] := by
  have h1 : (16 * a + b) / 16 = a := by omega
  have h2 : (16 * a + b) % 16 = b := by omega
  simp [byteToHex, h1, h2]

/-- C7 (amended): a hash followed by six lowercase hex digits round-trips
through hexToRgb and re-encoding; every input the parser's shape (an
optional hash, six hex digits of either case) rejects yields white. The
original claim fails because the parser also accepts a bare or uppercase
hex string, which is not of the form given in the spec. -/
theorem c7_hex_to_rgb :
    (∀ hex : String, specWellFormedHex hex → rgbToHexString (hexToRgb hex) = hex) ∧
    (∀ hex : String, hexWellFormed hex = false → hexToRgb hex = ⟨255, 255, 255⟩) := by
  constructor
  · intro hex hwf
    obtain ⟨d1, d2, d3, d4, d5, d6, hdata, hdigits⟩ := hwf
    obtain ⟨cs⟩ := hex
    simp only at hdata
    subst hdata
    obtain ⟨a1, v1, e1⟩ := lowerHexDigit_facts d1 (hdigits d1 (by simp))
    obtain ⟨a2, v2, e2⟩ := lowerHexDigit_facts d2 (hdigits d2 (by simp))
    obtain ⟨a3, v3, e3⟩ := lowerHexDigit_facts d3 (hdigits d3 (by simp))
    obtain ⟨a4, v4, e4⟩ := lowerHexDigit_facts d4 (hdigits d4 (by simp))
    obtain ⟨a5, v5, e5⟩ := lowerHexDigit_facts d5 (hdigits d5 (by simp))
    obtain ⟨a6, v6, e6⟩ := lowerHexDigit_facts d6 (hdigits d6 (by simp))
    simp only [hexToRgb, List.all_cons, List.all_nil, a1, a2, a3, a4, a5, a6,
      Bool.and_self, Bool.and_true, if_true]
    simp only [rgbToHexString, byteToHex_assemble _ _ v2, byteToHex_assemble _ _ v4,
      byteToHex_assemble _ _ v6, e1, e2, e3, e4, e5, e6]
    simp
  · intro hex h
    obtain ⟨cs⟩ := hex
    simp only [hexToRgb, hexWellFormed] at h ⊢
    rcases hcs : cs with _ | ⟨c, body⟩
    · rfl
    · subst hcs
      by_cases hc : c = '#' <;>
        rcases body with _ | ⟨c1, _ | ⟨c2, _ | ⟨c3, _ | ⟨c4, _ | ⟨c5, _ | ⟨c6, _ | ⟨c7, rest⟩⟩⟩⟩⟩⟩⟩ <;>
        simp_all

/-- C7 witness: the concrete color used by the classic template's accent
round-trips, and a string the parser rejects yields white. -/
theorem c7_hex_to_rgb_witness :
    rgbToHexString (hexToRgb "#c67c4e") = "#c67c4e" ∧ hexToRgb "not-a-color" = ⟨255, 255, 255⟩ :=
  ⟨c7_hex_to_rgb.1 "#c67c4e" ⟨'c', '6', '7', 'c', '4', 'e', by decide, by decide⟩,
   c7_hex_to_rgb.2 "not-a-color" (by decide)⟩

/-- C7 counterexample: a bare six-digit hex string is not of the spec's
form, so the claim says it maps to white, but the parser's optional hash
accepts it and returns its channel values. -/
theorem c7_counterexample :
    ¬ specWellFormedHex "aabbcc" ∧ hexToRgb "aabbcc" ≠ ⟨255, 255, 255⟩ := by
  constructor
  · rintro ⟨d1, d2, d3, d4, d5, d6, h, -⟩
    have hh := congrArg List.head? h
    simp at hh
  · decide

/-- Folding the decimal value over one appended digit. -/
theorem decimalVal_append_digit (l : List Char) (c : Char) :
    decimalVal (l ++ [c]) = decimalVal l * 10 + (c.toNat - '0'.toNat) := by
  simp [decimalVal, List.foldl_append]

/-- The digit character of a value below ten carries that value. -/
theorem toNat_digit_char (n : ℕ) (h : n < 10) :
    (Char.ofNat ('0'.toNat + n)).toNat - '0'.toNat = n := by
  interval_cases n <;> decide

/-- Decimal rendering round-trips through the decimal value whenever the
fuel exceeds the number. -/
theorem decimalVal_natToDigits : ∀ (fuel n : ℕ), n < fuel →
    decimalVal (natToDigits fuel n) = n := by
  intro fuel
  induction fuel with
  | zero => intro n h; exact absurd h (Nat.not_lt_zero n)
  | succ f ih =>
    intro n h
    simp only [natToDigits]
    split
    · rename_i h10
      simpa [decimalVal] using toNat_digit_char n h10
    · rename_i h10
      rw [decimalVal_append_digit, ih (n / 10) (by omega),
        toNat_digit_char (n % 10) (by omega)]
      omega

/-- Decimal rendering is injective on the naturals. -/
theorem natToDecimalString_inj {a b : ℕ}
    (h : natToDecimalString a = natToDecimalString b) : a = b := by
  have hd : natToDigits (a + 1) a = natToDigits (b + 1) b := congrArg String.data h
  have ha := decimalVal_natToDigits (a + 1) a (by omega)
  have hb := decimalVal_natToDigits (b + 1) b (by omega)
  rw [hd, hb] at ha
  omega

/-- Appending strings concatenates their character lists. -/
theorem string_append_data (s t : String) : (s ++ t).data = s.data ++ t.data := by
  cases s
  cases t
  rfl

/-- The generated filename determines the Date.now() sample it was built
from. -/
theorem makeFilename_inj {a b : ℕ} (h : makeFilename a = makeFilename b) : a = b := by
  apply natToDecimalString_inj
  have hd := congrArg String.data h
  simp only [makeFilename, string_append_data, List.append_assoc] at hd
  have hmid := List.append_cancel_left hd
  have hdig : (natToDecimalString a).data = (natToDecimalString b).data :=
    List.append_cancel_right hmid
  exact congrArg String.mk hdig

/-- A render call whose template id resolves to a catalog entry is the
background stage followed by the encode and write. -/
theorem generateImage_entry (req : GenRequest) (deps : BgDeps) (now : ℕ)
    (template : Template)
    (hgt : getTemplate (some (req.templateId.getD "classic")) = .entry template) :
    generateImage req deps now =
      match drawBackground template.config.background req.bgImageUrl req.bgImageBase64 deps with
      | (bgEffects, .error e) => (bgEffects, .error e)
      | (bgEffects, .ok _) =>
        (bgEffects ++ [.wroteFile (generatedDir ++ "/" ++ makeFilename now)],
         .ok ⟨makeFilename now, generatedDir ++ "/" ++ makeFilename now⟩) := by
  unfold generateImage
  rw [hgt]

/-- A render call whose template id names an inherited Object.prototype
member throws before performing any effect. -/
theorem generateImage_inherited (req : GenRequest) (deps : BgDeps) (now : ℕ) (name : String)
    (hgt : getTemplate (some (req.templateId.getD "classic")) = .inherited name) :
    generateImage req deps now =
      ([], .error "TypeError: Cannot read properties of undefined (reading 'canvas')") := by
  unfold generateImage
  rw [hgt]

/-- A successful render call's filename is the one built from its
Date.now() sample. -/
theorem generateImage_filename (req : GenRequest) (deps : BgDeps) (now : ℕ)
    (r : RenderResult) (h : (generateImage req deps now).2 = .ok r) :
    r.filename = makeFilename now := by
  cases hgt : getTemplate (some (req.templateId.getD "classic")) with
  | inherited name =>
    rw [generateImage_inherited req deps now name hgt] at h
    simp at h
  | entry template =>
    rw [generateImage_entry req deps now template hgt] at h
    rcases hbg : drawBackground template.config.background
        req.bgImageUrl req.bgImageBase64 deps with ⟨effs, res⟩
    rw [hbg] at h
    cases res with
    | error e => simp at h
    | ok u =>
      simp only at h
      cases h
      rfl

/-- C8 (amended): every successful generateImage call produces a filename
of the form featured-image-(decimal Date.now() value).webp, and two calls
whose Date.now() samples differ produce distinct filenames. Uniqueness
for arbitrary distinct calls fails: two calls in the same millisecond
observe the same sample and collide. -/
theorem c8_filename (req1 req2 : GenRequest) (deps1 deps2 : BgDeps) (t1 t2 : ℕ)
    (r1 r2 : RenderResult)
    (h1 : (generateImage req1 deps1 t1).2 = .ok r1)
    (h2 : (generateImage req2 deps2 t2).2 = .ok r2)
    (hne : t1 ≠ t2) :
    (∃ n : ℕ, r1.filename = "featured-image-" ++ natToDecimalString n ++ ".webp") ∧
    r1.filename ≠ r2.filename := by
  have e1 := generateImage_filename req1 deps1 t1 r1 h1
  have e2 := generateImage_filename req2 deps2 t2 r2 h2
  constructor
  · exact ⟨t1, e1⟩
  · rw [e1, e2]
    intro hcontra
    exact hne (makeFilename_inj hcontra)

/-- C8 witness: two successful calls one millisecond apart get distinct
filenames of the documented shape. -/
theorem c8_filename_witness :
    (∃ n : ℕ, (⟨"featured-image-1.webp", "generated/featured-image-1.webp"⟩ :
        RenderResult).filename = "featured-image-" ++ natToDecimalString n ++ ".webp") ∧
    (⟨"featured-image-1.webp", "generated/featured-image-1.webp"⟩ :
        RenderResult).filename ≠
      (⟨"featured-image-2.webp", "generated/featured-image-2.webp"⟩ :
        RenderResult).filename :=
  c8_filename reqPlainA reqPlainA depsOk depsOk 1 2
    ⟨"featured-image-1.webp", "generated/featured-image-1.webp"⟩
    ⟨"featured-image-2.webp", "generated/featured-image-2.webp"⟩
    rfl rfl (by decide)

/-- C8 counterexample: two distinct calls (different requests) in the
same millisecond both succeed and produce the same filename, so
filenames are not unique per call. -/
theorem c8_counterexample :
    ∃ r1 r2 : RenderResult,
      (generateImage reqPlainA depsOk 1700000000000).2 = .ok r1 ∧
      (generateImage reqPlainB depsOk 1700000000000).2 = .ok r2 ∧
      reqPlainA ≠ reqPlainB ∧ r1.filename = r2.filename :=
  ⟨⟨"featured-image-1700000000000.webp", "generated/featured-image-1700000000000.webp"⟩,
   ⟨"featured-image-1700000000000.webp", "generated/featured-image-1700000000000.webp"⟩,
   rfl, rfl, by decide, rfl⟩

/-- C9: for every catalog template with no banner configured, the banner
stage returns no bounds, and the category and title stages still resolve
both drawing coordinates to defined values with no bounds available (for
the title, whatever y the category stage reported). -/
theorem c9_no_banner_safe :
    ∀ t ∈ templatesList, t.config.banner = none →
      drawBannerBounds t.config.canvas t.config.banner = none ∧
      (∀ cc, t.config.category = some cc →
        (categoryPosition cc t.config.canvas none).1.isSome ∧
        (categoryPosition cc t.config.canvas none).2.isSome) ∧
      (∀ tc, t.config.title = some tc → ∀ categoryY : Option ℚ,
        (titlePosition tc t.config.canvas none categoryY).1.isSome ∧
        (titlePosition tc t.config.canvas none categoryY).2.isSome) := by
  intro t ht hb
  fin_cases ht <;>
    simp_all [templatesList, classicT, modernDarkT, minimalT, vibrantT, editorialT,
      prayerCoverT, drawBannerBounds, categoryPosition, titlePosition, alignOr, truthyQ,
      minimalCategoryCfg, minimalTitleCfg, editorialCategoryCfg, editorialTitleCfg]

/-- C9 witness: the minimal template has no banner, and its category and
title coordinates all resolve without banner bounds. -/
theorem c9_no_banner_safe_witness :
    ((categoryPosition minimalCategoryCfg ⟨1200, 630⟩ none).1.isSome ∧
     (categoryPosition minimalCategoryCfg ⟨1200, 630⟩ none).2.isSome) ∧
    ((titlePosition minimalTitleCfg ⟨1200, 630⟩ none (some 240)).1.isSome ∧
     (titlePosition minimalTitleCfg ⟨1200, 630⟩ none (some 240)).2.isSome) :=
  ⟨(c9_no_banner_safe minimalT (by decide) rfl).2.1 minimalCategoryCfg rfl,
   (c9_no_banner_safe minimalT (by decide) rfl).2.2 minimalTitleCfg rfl (some 240)⟩

/-- The loop body accepts the candidate when at most four wrapped lines
fit the height budget, keeping size, line height and wrapped lines. -/
theorem fitAux_accept (ctx : FitCtx) (size lh : ℚ)
    (h : (wrapText (ctx.meas size) ctx.text ctx.maxWidth).length ≤ maxLines ∧
      ((wrapText (ctx.meas size) ctx.text ctx.maxWidth).length : ℚ) * lh ≤ ctx.maxH) :
    fitAux ctx size lh =
      ⟨[size], 1, size, lh, wrapText (ctx.meas size) ctx.text ctx.maxWidth⟩ := by
  rw [fitAux]
  simp only [if_pos h]

/-- When the candidate is rejected and the stepped-down size would reach
or pass the floor, the body clamps to the floor, rescales the line
height, re-wraps once at the floor and stops. -/
theorem fitAux_clamp (ctx : FitCtx) (size lh : ℚ)
    (h1 : ¬ ((wrapText (ctx.meas size) ctx.text ctx.maxWidth).length ≤ maxLines ∧
      ((wrapText (ctx.meas size) ctx.text ctx.maxWidth).length : ℚ) * lh ≤ ctx.maxH))
    (h2 : size - 4 ≤ ctx.minF) :
    fitAux ctx size lh =
      ⟨[size, ctx.minF], 1, ctx.minF, ctx.baseLH * (ctx.minF / ctx.nominal),
       wrapText (ctx.meas ctx.minF) ctx.text ctx.maxWidth⟩ := by
  rw [fitAux]
  simp only [if_neg h1, dif_pos h2]

/-- When the candidate is rejected and the stepped-down size stays above
the floor, the loop continues at size minus 4 with the proportionally
rescaled line height. -/
theorem fitAux_step (ctx : FitCtx) (size lh : ℚ)
    (h1 : ¬ ((wrapText (ctx.meas size) ctx.text ctx.maxWidth).length ≤ maxLines ∧
      ((wrapText (ctx.meas size) ctx.text ctx.maxWidth).length : ℚ) * lh ≤ ctx.maxH))
    (h2 : ctx.minF < size - 4) :
    fitAux ctx size lh =
      ⟨size :: (fitAux ctx (size - 4) (ctx.baseLH * ((size - 4) / ctx.nominal))).tried,
       (fitAux ctx (size - 4) (ctx.baseLH * ((size - 4) / ctx.nominal))).iters + 1,
       (fitAux ctx (size - 4) (ctx.baseLH * ((size - 4) / ctx.nominal))).fontSize,
       (fitAux ctx (size - 4) (ctx.baseLH * ((size - 4) / ctx.nominal))).lineHeight,
       (fitAux ctx (size - 4) (ctx.baseLH * ((size - 4) / ctx.nominal))).lines⟩ := by
  rw [fitAux]
  simp only [if_neg h1, dif_neg (not_le_of_lt h2)]

/-- Loop invariants of the fitting loop, entered at or above the floor:
the body runs at most (entry size minus floor) / 4 + 1 times, the final
size is at least the floor, the first tried size is the entry size, and
the tried sizes never increase. -/
theorem fitAux_spec (ctx : FitCtx) (size lh : ℚ) :
    ctx.minF ≤ size →
      (((fitAux ctx size lh).iters : ℚ) ≤ (size - ctx.minF) / 4 + 1) ∧
      ctx.minF ≤ (fitAux ctx size lh).fontSize ∧
      (fitAux ctx size lh).tried.head? = some size ∧
      List.Chain' (fun a b => b ≤ a) (fitAux ctx size lh).tried := by
  induction size, lh using fitAux.induct ctx with
  | case1 size lh hcond =>
    intro hentry
    rw [fitAux_accept ctx size lh hcond]
    refine ⟨?_, hentry, rfl, by simp⟩
    have : (0 : ℚ) ≤ (size - ctx.minF) / 4 := by linarith
    push_cast
    linarith
  | case2 size lh hcond hclamp =>
    intro hentry
    rw [fitAux_clamp ctx size lh hcond hclamp]
    refine ⟨?_, le_refl _, rfl, ?_⟩
    · have : (0 : ℚ) ≤ (size - ctx.minF) / 4 := by linarith
      push_cast
      linarith
    · simp [List.chain'_cons, hentry]
  | case3 size lh hcond hclamp ih =>
    intro hentry
    have hlt : ctx.minF < size - 4 := lt_of_not_le hclamp
    obtain ⟨ih1, ih2, ih3, ih4⟩ := ih (le_of_lt hlt)
    rw [fitAux_step ctx size lh hcond hlt]
    refine ⟨?_, ih2, rfl, ?_⟩
    · push_cast
      linarith
    · rw [List.chain'_cons']
      refine ⟨?_, ih4⟩
      intro b hb
      rw [ih3] at hb
      cases hb
      linarith

/-- The final wrapped lines of the loop are the wrap of the title at the
final font size. -/
theorem fitAux_lines_final (ctx : FitCtx) (size lh : ℚ) :
    (fitAux ctx size lh).lines =
      wrapText (ctx.meas (fitAux ctx size lh).fontSize) ctx.text ctx.maxWidth := by
  induction size, lh using fitAux.induct ctx with
  | case1 size lh hcond => rw [fitAux_accept ctx size lh hcond]
  | case2 size lh hcond hclamp => rw [fitAux_clamp ctx size lh hcond hclamp]
  | case3 size lh hcond hclamp ih =>
    rw [fitAux_step ctx size lh hcond (lt_of_not_le hclamp)]
    exact ih

/-- The loop stops only at a state that satisfies the acceptance
condition or whose font size is the floor. -/
theorem fitAux_accept_or_floor (ctx : FitCtx) (size lh : ℚ) :
    ((fitAux ctx size lh).lines.length ≤ maxLines ∧
      ((fitAux ctx size lh).lines.length : ℚ) * (fitAux ctx size lh).lineHeight ≤ ctx.maxH) ∨
    (fitAux ctx size lh).fontSize = ctx.minF := by
  induction size, lh using fitAux.induct ctx with
  | case1 size lh hcond =>
    rw [fitAux_accept ctx size lh hcond]
    exact Or.inl hcond
  | case2 size lh hcond hclamp =>
    rw [fitAux_clamp ctx size lh hcond hclamp]
    exact Or.inr rfl
  | case3 size lh hcond hclamp ih =>
    rw [fitAux_step ctx size lh hcond (lt_of_not_le hclamp)]
    exact ih

/-- C1 (amended): whenever the nominal font size is at least the floor
(true of every catalog template, and of every nominal size of at least
30), the fitting loop runs at most (nominal minus floor) / 4 + 1 body
iterations, the font sizes it tries are monotonically non-increasing, and
the final accepted font size is at least the floor. Without that proviso
the original claim fails, because a nominal size below 30 never enters
the loop and stays below the floor. -/
theorem c1_title_fit (meas : ℚ → String → ℚ) (text : String)
    (maxWidth baseLH maxH nominal : ℚ) (h : minFontSizeOf nominal ≤ nominal) :
    (((fitTitle meas text maxWidth nominal baseLH maxH).iters : ℚ) ≤
        (nominal - minFontSizeOf nominal) / 4 + 1) ∧
    List.Chain' (fun a b => b ≤ a) (fitTitle meas text maxWidth nominal baseLH maxH).tried ∧
    minFontSizeOf nominal ≤ (fitTitle meas text maxWidth nominal baseLH maxH).fontSize := by
  have hs := fitAux_spec ⟨meas, text, maxWidth, nominal, minFontSizeOf nominal, baseLH, maxH⟩
    nominal baseLH h
  unfold fitTitle
  rw [if_pos h]
  exact ⟨hs.1, hs.2.2.2, hs.2.1⟩

/-- C1 witness: the classic template's nominal size 64 has floor 32, and
the bound, monotonicity and floor guarantees hold at a concrete call. -/
theorem c1_title_fit_witness :
    minFontSizeOf 64 ≤ 64 ∧
    ((((fitTitle (fun _ => measLen) "Hello World" 840 64 80 272).iters : ℚ) ≤
        (64 - minFontSizeOf 64) / 4 + 1) ∧
      List.Chain' (fun a b => b ≤ a)
        (fitTitle (fun _ => measLen) "Hello World" 840 64 80 272).tried ∧
      minFontSizeOf 64 ≤ (fitTitle (fun _ => measLen) "Hello World" 840 64 80 272).fontSize) :=
  ⟨by norm_num [minFontSizeOf, mathMax],
   c1_title_fit (fun _ => measLen) "Hello World" 840 80 272 64
     (by norm_num [minFontSizeOf, mathMax])⟩

/-- C1 counterexample: at nominal size 20 the floor is 30, the loop never
runs, the final font size 20 sits below the floor, and the claimed
iteration bound is negative while the iteration count is zero, so the
claim fails as stated for this title configuration. -/
theorem c1_counterexample :
    ¬ ((((fitTitle (fun _ => measLen) "Some Title" 100 20 80 100).iters : ℚ) ≤
          (20 - minFontSizeOf 20) / 4 + 1) ∧
        minFontSizeOf 20 ≤ (fitTitle (fun _ => measLen) "Some Title" 100 20 80 100).fontSize) := by
  have hguard : ¬ (minFontSizeOf 20 ≤ (20 : ℚ)) := by norm_num [minFontSizeOf, mathMax]
  unfold fitTitle
  rw [if_neg hguard]
  norm_num [minFontSizeOf, mathMax]

/-- C3 (amended): the height budget is 80 percent of the banner height,
or half the canvas height without banner bounds; a candidate font size is
accepted exactly when at most 4 wrapped lines fit the budget; a rejected
candidate steps down by 4 with the line height rescaled by the ratio of
the new size to the nominal size before re-wrapping, except that a step
reaching or passing the floor clamps to the floor, rescales the same way,
and accepts the floor after one final re-wrap without re-checking the
condition; hence the loop's outcome satisfies the acceptance condition or
sits at the floor. -/
theorem c3_accept_condition (meas : ℚ → String → ℚ) (text : String)
    (maxWidth nominal baseLH : ℚ) (bannerBounds : Option Bounds) (canvasHeight : ℚ)
    (size lh : ℚ) :
    (∀ b, bannerBounds = some b → maxHeightOf bannerBounds canvasHeight = b.height * 0.8) ∧
    (bannerBounds = none → maxHeightOf bannerBounds canvasHeight = canvasHeight * 0.5) ∧
    (((wrapText (meas size) text maxWidth).length ≤ maxLines ∧
        ((wrapText (meas size) text maxWidth).length : ℚ) * lh ≤
          maxHeightOf bannerBounds canvasHeight) →
      fitAux ⟨meas, text, maxWidth, nominal, minFontSizeOf nominal, baseLH,
          maxHeightOf bannerBounds canvasHeight⟩ size lh =
        ⟨[size], 1, size, lh, wrapText (meas size) text maxWidth⟩) ∧
    (¬ ((wrapText (meas size) text maxWidth).length ≤ maxLines ∧
        ((wrapText (meas size) text maxWidth).length : ℚ) * lh ≤
          maxHeightOf bannerBounds canvasHeight) →
      minFontSizeOf nominal < size - 4 →
      fitAux ⟨meas, text, maxWidth, nominal, minFontSizeOf nominal, baseLH,
          maxHeightOf bannerBounds canvasHeight⟩ size lh =
        ⟨size :: (fitAux ⟨meas, text, maxWidth, nominal, minFontSizeOf nominal, baseLH,
            maxHeightOf bannerBounds canvasHeight⟩ (size - 4)
            (baseLH * ((size - 4) / nominal))).tried,
         (fitAux ⟨meas, text, maxWidth, nominal, minFontSizeOf nominal, baseLH,
            maxHeightOf bannerBounds canvasHeight⟩ (size - 4)
            (baseLH * ((size - 4) / nominal))).iters + 1,
         (fitAux ⟨meas, text, maxWidth, nominal, minFontSizeOf nominal, baseLH,
            maxHeightOf bannerBounds canvasHeight⟩ (size - 4)
            (baseLH * ((size - 4) / nominal))).fontSize,
         (fitAux ⟨meas, text, maxWidth, nominal, minFontSizeOf nominal, baseLH,
            maxHeightOf bannerBounds canvasHeight⟩ (size - 4)
            (baseLH * ((size - 4) / nominal))).lineHeight,
         (fitAux ⟨meas, text, maxWidth, nominal, minFontSizeOf nominal, baseLH,
            maxHeightOf bannerBounds canvasHeight⟩ (size - 4)
            (baseLH * ((size - 4) / nominal))).lines⟩) ∧
    (¬ ((wrapText (meas size) text maxWidth).length ≤ maxLines ∧
        ((wrapText (meas size) text maxWidth).length : ℚ) * lh ≤
          maxHeightOf bannerBounds canvasHeight) →
      size - 4 ≤ minFontSizeOf nominal →
      fitAux ⟨meas, text, maxWidth, nominal, minFontSizeOf nominal, baseLH,
          maxHeightOf bannerBounds canvasHeight⟩ size lh =
        ⟨[size, minFontSizeOf nominal], 1, minFontSizeOf nominal,
         baseLH * (minFontSizeOf nominal / nominal),
         wrapText (meas (minFontSizeOf nominal)) text maxWidth⟩) ∧
    (((fitAux ⟨meas, text, maxWidth, nominal, minFontSizeOf nominal, baseLH,
          maxHeightOf bannerBounds canvasHeight⟩ size lh).lines.length ≤ maxLines ∧
        ((fitAux ⟨meas, text, maxWidth, nominal, minFontSizeOf nominal, baseLH,
          maxHeightOf bannerBounds canvasHeight⟩ size lh).lines.length : ℚ) *
          (fitAux ⟨meas, text, maxWidth, nominal, minFontSizeOf nominal, baseLH,
            maxHeightOf bannerBounds canvasHeight⟩ size lh).lineHeight ≤
          maxHeightOf bannerBounds canvasHeight) ∨
      (fitAux ⟨meas, text, maxWidth, nominal, minFontSizeOf nominal, baseLH,
          maxHeightOf bannerBounds canvasHeight⟩ size lh).fontSize =
        minFontSizeOf nominal) := by
  refine ⟨?_, ?_, ?_, ?_, ?_, ?_⟩
  · intro b hb
    rw [hb]
    rfl
  · intro hn
    rw [hn]
    rfl
  · intro h
    exact fitAux_accept _ _ _ h
  · intro h1 h2
    exact fitAux_step _ _ _ h1 h2
  · intro h1 h2
    exact fitAux_clamp _ _ _ h1 h2
  · exact fitAux_accept_or_floor _ _ _

/-- C3 witness: a short title at the classic nominal size is accepted at
once by the stated condition. -/
theorem c3_accept_condition_witness :
    fitAux ⟨fun _ => measLen, "Hi", 840, 64, minFontSizeOf 64, 80, maxHeightOf none 544⟩ 64 80 =
      ⟨[64], 1, 64, 80, wrapText measLen "Hi" 840⟩ :=
  (c3_accept_condition (fun _ => measLen) "Hi" 840 64 80 none 544 64 80).2.2.1
    (by
      have hl : (wrapText measLen "Hi" 840).length = 1 := by decide
      constructor
      · rw [hl]
        decide
      · rw [hl]
        norm_num [maxHeightOf])

/-- C3 counterexample: with a measure making every candidate overflow,
the floor candidate is accepted with six wrapped lines, although the
claimed acceptance condition (line count at most 4) fails there, so a
size is not accepted exactly when the stated condition holds. -/
theorem c3_counterexample :
    4 < (fitTitle (fun _ _ => 1000) "a b c d e f" 10 33 80 100).lines.length := by
  unfold fitTitle
  rw [if_pos (by norm_num [minFontSizeOf, mathMax] : minFontSizeOf (33 : ℚ) ≤ 33)]
  rw [fitAux_clamp _ _ _ (by decide) (by norm_num [minFontSizeOf, mathMax])]
  decide

/-- With a truthy (nonempty) inline base64 image supplied, drawBackground
is exactly the base64 decode: painted on success, wrapped error on
failure, the URL never consulted. -/
theorem drawBackground_base64 (bgConfig : BgCfg) (u : Option String) (deps : BgDeps)
    (b64 : String) (hne : b64 ≠ "") :
    drawBackground bgConfig u (some b64) deps =
      match deps.loadBase64 b64 with
      | .ok _ => ([.drewUserImage .base64], .ok ())
      | .error e => ([], .error ("Background image loading failed: " ++ e)) := by
  unfold drawBackground
  simp [truthyS, hne]

/-- With only a truthy URL supplied, drawBackground fetches it and decodes
the buffer, wrapping either failure. -/
theorem drawBackground_url (bgConfig : BgCfg) (deps : BgDeps) (url : String)
    (hne : url ≠ "") :
    drawBackground bgConfig (some url) none deps =
      match deps.fetchImageFromUrl url with
      | .ok buf =>
        match deps.loadBuffer buf with
        | .ok _ => ([.httpFetch url, .drewUserImage .url], .ok ())
        | .error e => ([.httpFetch url], .error ("Background image loading failed: " ++ e))
      | .error e => ([.httpFetch url], .error ("Background image loading failed: " ++ e)) := by
  unfold drawBackground
  simp [truthyS, hne]

/-- When the background stage fails, the only effects it may have
performed are HTTP fetches: nothing was painted. -/
theorem drawBackground_error_effects (bgConfig : BgCfg) (u b64 : Option String)
    (deps : BgDeps) (e : String)
    (h : (drawBackground bgConfig u b64 deps).2 = .error e) :
    ∀ eff ∈ (drawBackground bgConfig u b64 deps).1, ∃ url, eff = RenderEffect.httpFetch url := by
  intro eff heff
  unfold drawBackground at h heff
  by_cases houter : (truthyS u || truthyS b64) = true
  · rw [if_pos houter] at h heff
    by_cases hinner : truthyS b64 = true
    · rw [if_pos hinner] at h heff
      cases hload : deps.loadBase64 (b64.getD "") with
      | ok img =>
        simp only [hload] at h
        simp at h
      | error e2 =>
        simp only [hload] at heff
        simp at heff
    · rw [if_neg hinner] at h heff
      cases hf : deps.fetchImageFromUrl (u.getD "") with
      | ok buf =>
        simp only [hf] at h heff
        cases hb : deps.loadBuffer buf with
        | ok img =>
          simp only [hb] at h
          simp at h
        | error e2 =>
          simp only [hb] at heff
          simp at heff
          exact ⟨u.getD "", heff⟩
      | error e2 =>
        simp only [hf] at heff
        simp at heff
        exact ⟨u.getD "", heff⟩
  · rw [if_neg houter] at h
    cases bgConfig with
    | solid c => simp at h
    | gradient a st => simp at h
    | image p =>
      cases hload : deps.loadPath p with
      | ok img =>
        simp only [hload] at h
        simp at h
      | error e2 =>
        simp only [hload] at h
        simp at h

/-- C5: when the caller supplied a background and its decode or fetch
fails, generateImage fails with the propagated wrapped error, nothing is
painted in its place (every performed effect is at most the HTTP fetch),
and no output file is written. -/
theorem c5_background_failure (req : GenRequest) (deps : BgDeps) (now : ℕ) (e : String)
    (template : Template)
    (_hsupplied : truthyS req.bgImageUrl = true ∨ truthyS req.bgImageBase64 = true)
    (hres : getTemplate (some (req.templateId.getD "classic")) = .entry template)
    (hfail : (drawBackground template.config.background
        req.bgImageUrl req.bgImageBase64 deps).2 = .error e) :
    (generateImage req deps now).2 = .error e ∧
    (∀ p, RenderEffect.wroteFile p ∉ (generateImage req deps now).1) ∧
    (∀ eff ∈ (generateImage req deps now).1, ∃ url, eff = RenderEffect.httpFetch url) := by
  have heffs := drawBackground_error_effects _ _ _ _ _ hfail
  rcases hbg : drawBackground template.config.background
      req.bgImageUrl req.bgImageBase64 deps with ⟨effs, res⟩
  rw [hbg] at hfail heffs
  simp only at hfail heffs
  subst hfail
  have hgen : generateImage req deps now = (effs, .error e) := by
    rw [generateImage_entry req deps now template hres, hbg]
  rw [hgen]
  refine ⟨rfl, ?_, heffs⟩
  intro p hp
  obtain ⟨url, hurl⟩ := heffs _ hp
  exact absurd hurl (by simp)

/-- C5 witness: a request with a bad inline background fails with the
wrapped decode error, performs no effect at all, and writes no file. -/
theorem c5_background_failure_witness :
    (generateImage reqBase64 depsBadBase64 7).2 =
      .error "Background image loading failed: unsupported image type" ∧
    (∀ p, RenderEffect.wroteFile p ∉ (generateImage reqBase64 depsBadBase64 7).1) ∧
    (∀ eff ∈ (generateImage reqBase64 depsBadBase64 7).1,
      ∃ url, eff = RenderEffect.httpFetch url) :=
  c5_background_failure reqBase64 depsBadBase64 7
    "Background image loading failed: unsupported image type" classicT
    (Or.inr (by decide)) rfl rfl

/-- C10 (amended): when a truthy (nonempty) inline base64 background is
supplied, the URL is never fetched (no HTTP request effect occurs,
whatever else was also supplied), and when the request reaches the
background stage and the decode succeeds, the background painted is the
inline image. An empty bgImageBase64 string is falsy in JS, falls through
to the URL branch, and refutes the unconditional claim. -/
theorem c10_base64_priority (req : GenRequest) (deps : BgDeps) (now : ℕ) (b64 : String)
    (hb : req.bgImageBase64 = some b64) (hne : b64 ≠ "") :
    (∀ url, RenderEffect.httpFetch url ∉ (generateImage req deps now).1) ∧
    (∀ (template : Template) (img : Image),
      getTemplate (some (req.templateId.getD "classic")) = .entry template →
      deps.loadBase64 b64 = .ok img →
      RenderEffect.drewUserImage ImgSrc.base64 ∈ (generateImage req deps now).1) := by
  constructor
  · intro url
    cases hgt : getTemplate (some (req.templateId.getD "classic")) with
    | inherited name =>
      rw [generateImage_inherited req deps now name hgt]
      simp
    | entry template =>
      rw [generateImage_entry req deps now template hgt, hb,
        drawBackground_base64 _ _ _ _ hne]
      cases hload : deps.loadBase64 b64 with
      | ok img =>
        simp only [hload]
        simp
      | error e =>
        simp only [hload]
        simp
  · intro template img hgt hok
    rw [generateImage_entry req deps now template hgt, hb,
      drawBackground_base64 _ _ _ _ hne, hok]
    simp

/-- C10 witness: a request carrying both a nonempty inline background and
a URL issues no fetch and paints the inline image. -/
theorem c10_base64_priority_witness :
    (∀ url, RenderEffect.httpFetch url ∉ (generateImage reqBoth depsOk 3).1) ∧
    (∀ (template : Template) (img : Image),
      getTemplate (some (reqBoth.templateId.getD "classic")) = .entry template →
      depsOk.loadBase64 "data:image/png;base64,AAAA" = .ok img →
      RenderEffect.drewUserImage ImgSrc.base64 ∈ (generateImage reqBoth depsOk 3).1) :=
  c10_base64_priority reqBoth depsOk 3 "data:image/png;base64,AAAA" rfl (by decide)

/-- C10 counterexample: a request supplying both backgrounds, with the
inline base64 string empty, is falsy at the inner check of line 105, so
the program fetches the URL and never uses the inline image, refuting
that supplying both means the inline image is used and the URL never
fetched. -/
theorem c10_counterexample :
    reqEmptyB64.bgImageBase64 = some "" ∧
    reqEmptyB64.bgImageUrl = some "http://example.com/a.png" ∧
    RenderEffect.httpFetch "http://example.com/a.png" ∈ (generateImage reqEmptyB64 depsOk 3).1 ∧
    RenderEffect.drewUserImage ImgSrc.base64 ∉ (generateImage reqEmptyB64 depsOk 3).1 :=
  ⟨rfl, rfl, by decide, by decide⟩

end ImageGen
